import Mathlib

/-!
Verification of the ManagedIndexer synchronization engine
(src/services/code-index/managed): manifest cache with TTL and in-flight
deduplication, workspace-folder registry, git-event state machine, and
orchestrator lifecycle.

The embedding is shallow and sequential: JavaScript `Map`s become
association lists with JS `Map` semantics (insertion order, update in
place), promises become promise identifiers (`Nat`), `Date.now()`
timestamps become explicit `Int` arguments, and every external
collaborator (server manifest fetch, kilocode config lookup, git
inspection, watcher construction) is an oracle supplied through an
environment record.  `async` functions that run without interleaving are
modelled as atomic state transformers; the one place where interleaving
matters — the manifest cache's in-flight deduplication — is modelled by
splitting `getOrFetchManifest` into its synchronous prefix
(`getOrFetchManifestStart`, everything before the `await`) and the
continuation after the awaited fetch settles.
-/

namespace ManagedIndexer

/-- JS `Map<string, α>` modelled as an association list in insertion
order.  `mapGet` is `Map.get`: the value at the first matching key. -/
def mapGet {α : Type} : List (String × α) → String → Option α
  | [], _ => none
  | (k, v) :: rest, key => if k = key then some v else mapGet rest key

/-- JS `Map.set`: update the entry in place when the key is present
(keeping its position), otherwise append a new entry. -/
def mapSet {α : Type} : List (String × α) → String → α → List (String × α)
  | [], key, v => [(key, v)]
  | (k, w) :: rest, key, v =>
    if k = key then (key, v) :: rest else (k, w) :: mapSet rest key v

/-- JS `Map.delete`: remove the entry for the key.  (On the maps built by
`mapSet` keys are unique, so removing every occurrence coincides with
JS semantics.) -/
def mapDelete {α : Type} (m : List (String × α)) (key : String) : List (String × α) :=
  m.filter (fun p => !(p.1 = key : Bool))

theorem mapGet_mapSet_self {α : Type} (m : List (String × α)) (k : String) (v : α) :
    mapGet (mapSet m k v) k = some v := by
  induction m with
  | nil => simp [mapGet, mapSet]
  | cons hd tl ih =>
    by_cases h : hd.1 = k <;> simp [mapGet, mapSet, h, ih]

theorem mapGet_mapSet_other {α : Type} (m : List (String × α)) (k k' : String) (v : α)
    (h : k ≠ k') : mapGet (mapSet m k v) k' = mapGet m k' := by
  induction m with
  | nil => simp [mapGet, mapSet, h]
  | cons hd tl ih =>
    by_cases hh : hd.1 = k
    · simp [mapGet, mapSet, hh, h]
    · by_cases hk : hd.1 = k' <;> simp [mapGet, mapSet, hh, hk, ih, Ne.symm h]

theorem mapGet_mapDelete_self {α : Type} (m : List (String × α)) (k : String) :
    mapGet (mapDelete m k) k = none := by
  induction m with
  | nil => simp [mapGet, mapDelete]
  | cons hd tl ih =>
    by_cases h : hd.1 = k
    · simpa [mapDelete, h] using ih
    · simpa [mapDelete, mapGet, h] using ih

/-- Membership of the looked-up pair: `mapGet` returns the value of an
entry actually present in the list, stored under exactly that key. -/
theorem mapGet_mem {α : Type} {m : List (String × α)} {k : String} {v : α}
    (h : mapGet m k = some v) : (k, v) ∈ m := by
  induction m with
  | nil => simp [mapGet] at h
  | cons hd tl ih =>
    cases hd with
    | mk k0 v0 =>
      by_cases hh : k0 = k
      · simp [mapGet, hh] at h
        subst hh
        subst h
        exact List.mem_cons_self _ _
      · simp [mapGet, hh] at h
        exact List.mem_cons_of_mem _ (ih h)

/- ======================= Data model (state/types) ======================= -/

/-- One `(filePath, fileHash)` pair of the server manifest. -/
structure ManifestFileEntry where
  filePath : String
  fileHash : String
deriving DecidableEq

/-- The `ServerManifest` as consumed by the engine: the list of already
indexed files. -/
structure ServerManifest where
  files : List ManifestFileEntry
deriving DecidableEq

/-- Parameters of a manifest fetch. -/
structure ManifestFetchParams where
  organizationId : String
  projectId : String
  branch : String
  token : String
deriving DecidableEq

/-- A `ManifestCacheEntry`: a cached manifest value, its fetch timestamp,
and the in-flight fetch promise (modelled as a promise identifier). -/
structure ManifestCacheEntry where
  manifest : Option ServerManifest
  fetchedAt : Int
  fetchPromise : Option Nat
deriving DecidableEq

/-- The manifest cache (`manifestCacheAtom`): a JS `Map` keyed by
`"projectId:branch"`. -/
abbrev ManifestCache : Type := List (String × ManifestCacheEntry)

/-- Error taxonomy of `ManagedIndexerError.type`. -/
inductive ErrorType where
  | setup
  | scan
  | fileUpsert
  | git
  | manifest
  | config
deriving DecidableEq

/-- A `ManagedIndexerError` (timestamp and stack-trace details, which are
environment noise, are not modelled; `context` is the key/value record). -/
structure ManagedIndexerError where
  type : ErrorType
  message : String
  context : List (String × String)
deriving DecidableEq

/-- Function `createError(type, error, context)`: the message is the stringified
thrown value. -/
def createError (type : ErrorType) (message : String)
    (context : List (String × String)) : ManagedIndexerError :=
  { type := type, message := message, context := context }

/- ======================= Manifest cache operations ======================= -/

/-- Default `maxAgeMs` of `getCachedManifest`: 5 minutes. -/
def manifestTtlMs : Int := 5 * 60 * 1000

/-- Key builder `getManifestCacheKey(projectId, branch)`. -/
def getManifestCacheKey (projectId branch : String) : String :=
  projectId ++ ":" ++ branch

/-- Function `getCachedManifest(cache, key, maxAgeMs)`; `now` makes the
`Date.now()` read explicit.  Returns the cached manifest unless the entry
is missing, has no manifest, or `now - fetchedAt > maxAgeMs`. -/
def getCachedManifest (cache : ManifestCache) (key : String) (now maxAgeMs : Int) :
    Option ServerManifest :=
  match mapGet cache key with
  | none => none
  | some entry =>
    match entry.manifest with
    | none => none
    | some m => if now - entry.fetchedAt > maxAgeMs then none else some m

/-- Result of the synchronous prefix of `getOrFetchManifest`: join an
in-flight promise, serve a fresh cached manifest, or start a new fetch. -/
inductive FetchOutcome where
  | joined (pid : Nat)
  | cached (m : ServerManifest)
  | started (pid : Nat)
deriving DecidableEq

/-- Synchronous prefix of `getOrFetchManifest` — everything before the
`await`: re-use a non-null `fetchPromise`, else serve a fresh cached
manifest, else create the fetch promise (`newPid` models the identity of
the freshly created promise) and publish it in the cache with
`{manifest: null, fetchedAt: now, fetchPromise: promise}`. -/
def getOrFetchManifestStart (params : ManifestFetchParams) (cache : ManifestCache)
    (now : Int) (newPid : Nat) : FetchOutcome × ManifestCache :=
  let key := getManifestCacheKey params.projectId params.branch
  match (mapGet cache key).bind (fun e => e.fetchPromise) with
  | some p => (.joined p, cache)
  | none =>
    match getCachedManifest cache key now manifestTtlMs with
    | some m => (.cached m, cache)
    | none =>
      (.started newPid,
       mapSet cache key { manifest := none, fetchedAt := now, fetchPromise := some newPid })

/- The external collaborators, as oracles. -/

/-- Shape of `getKilocodeConfig`'s result that the engine reads:
`config?.project?.id` collapsed to an optional project id. -/
structure KilocodeProjectConfig where
  projectId : Option String
deriving DecidableEq

/-- External collaborator oracle: `getServerManifest` outcomes keyed by
params, resolution values of already-pending promises, `getKilocodeConfig`
outcomes keyed by `(cwd, repositoryUrl?)`, the supported-extension
allow-list (`scannerExtensions`, defined outside this module), and the
`Date.now()` reads / fresh promise id of a single handler run. -/
structure Env where
  fetchManifest : ManifestFetchParams → Except String ServerManifest
  pendingResult : Nat → Except String ServerManifest
  kiloConfig : String → Option String → Except String (Option KilocodeProjectConfig)
  scannerExtensions : List String
  now : Int
  now2 : Int
  freshPid : Nat

/-- Function `getOrFetchManifest`, run to completion without interleaving: the
synchronous prefix followed by the continuation after the awaited promise
settles.  A joined caller returns the pending promise's eventual value; a
started fetch either replaces the entry with
`{manifest, fetchedAt: now2, fetchPromise: null}` on success or deletes
the entry and rethrows on failure. -/
def getOrFetchManifest (env : Env) (params : ManifestFetchParams) (cache : ManifestCache)
    (now now2 : Int) (newPid : Nat) : ManifestCache × Except String ServerManifest :=
  let key := getManifestCacheKey params.projectId params.branch
  match getOrFetchManifestStart params cache now newPid with
  | (.joined p, c) => (c, env.pendingResult p)
  | (.cached m, c) => (c, .ok m)
  | (.started _, c) =>
    match env.fetchManifest params with
    | .ok m =>
      (mapSet c key { manifest := some m, fetchedAt := now2, fetchPromise := none }, .ok m)
    | .error e => (mapDelete c key, .error e)

/-- Predicate `isFileIndexed(manifest, filePath, fileHash)`:
`manifest.files.some(f => f.filePath === filePath && f.fileHash === fileHash)`. -/
def isFileIndexed (manifest : ServerManifest) (filePath fileHash : String) : Bool :=
  manifest.files.any (fun f => f.filePath == filePath && f.fileHash == fileHash)

/- ======================= Workspace folder registry ======================= -/

/-- The `ConfigState` snapshot: token, organization id, tester-warning
timestamp, each possibly null. -/
structure ConfigState where
  token : Option String
  organizationId : Option String
  testerWarningsDisabledUntil : Option Int
deriving DecidableEq

/-- JS truthiness of a `string | null | undefined` value: null, undefined
and the empty string are falsy. -/
def isTruthy : Option String → Bool
  | none => false
  | some s => !(s = "" : Bool)

/-- JS `a || b` on `string | null | undefined` operands. -/
def jsOrString (a b : Option String) : Option String :=
  if isTruthy a then a else b

/-- Identity of a `vscode.WorkspaceFolder`: its `uri.fsPath` and name. -/
structure WorkspaceFolder where
  fsPath : String
  name : String
deriving DecidableEq

/-- Per-folder state (`WorkspaceFolderState`).  The watcher handle is a
reference, modelled as an identifier; `===` on handles is identifier
equality. -/
structure WorkspaceFolderState where
  folder : WorkspaceFolder
  gitBranch : Option String
  projectId : Option String
  repositoryUrl : Option String
  isIndexing : Bool
  watcher : Option Nat
  lastError : Option ManagedIndexerError
deriving DecidableEq

/-- A `Partial<WorkspaceFolderState>` used by the shallow-merge update
atoms: each field is either absent (key not in the object) or present
with a value. -/
structure FolderUpdate where
  gitBranch : Option (Option String) := none
  projectId : Option (Option String) := none
  repositoryUrl : Option (Option String) := none
  isIndexing : Option Bool := none
  watcher : Option (Option Nat) := none
  lastError : Option (Option ManagedIndexerError) := none
deriving DecidableEq

/-- Object spread `{...existing, ...updates}`: fields present in the
update win. -/
def applyFolderUpdate (st : WorkspaceFolderState) (u : FolderUpdate) : WorkspaceFolderState :=
  { folder := st.folder,
    gitBranch := u.gitBranch.getD st.gitBranch,
    projectId := u.projectId.getD st.projectId,
    repositoryUrl := u.repositoryUrl.getD st.repositoryUrl,
    isIndexing := u.isIndexing.getD st.isIndexing,
    watcher := u.watcher.getD st.watcher,
    lastError := u.lastError.getD st.lastError }

/-- The folder registry (`workspaceFoldersAtom`): a JS `Map` from folder
path to state. -/
abbrev FolderRegistry : Type := List (String × WorkspaceFolderState)

/-- Function `updateWorkspaceFolder(folders, folderId, updates)` (also the body of
`updateWorkspaceFolderAtom`): shallow-merge into the existing entry; a
no-op when the path is absent. -/
def updateWorkspaceFolder (folders : FolderRegistry) (folderId : String)
    (u : FolderUpdate) : FolderRegistry :=
  match mapGet folders folderId with
  | none => folders
  | some existing => mapSet folders folderId (applyFolderUpdate existing u)

/-- Function `findWorkspaceFolderByWatcher(folders, watcher)`: linear scan in
insertion order for `state.watcher === watcher`.  The handle argument is
an `Option Nat` so that the JS case `null === null` (a null-watcher
folder matched by a null event handle) is representable. -/
def findWorkspaceFolderByWatcher : FolderRegistry → Option Nat → Option WorkspaceFolderState
  | [], _ => none
  | (_, st) :: rest, w =>
    if st.watcher = w then some st else findWorkspaceFolderByWatcher rest w

/- ======================= File upsert tasks ======================= -/

/-- A queued `FileUpsertTask`. -/
structure FileUpsertTask where
  filePath : String
  fileHash : String
  branch : String
  isBaseBranch : Bool
  projectId : String
  workspacePath : String
deriving DecidableEq

/-- Function `createFileUpsertTask`. -/
def createFileUpsertTask (filePath fileHash branch : String) (isBaseBranch : Bool)
    (projectId workspacePath : String) : FileUpsertTask :=
  { filePath := filePath, fileHash := fileHash, branch := branch,
    isBaseBranch := isBaseBranch, projectId := projectId, workspacePath := workspacePath }

/-- Index of the last `.` in a character list, if any. -/
def lastDotIndex : List Char → Option Nat
  | [] => none
  | c :: rest =>
    match lastDotIndex rest with
    | some i => some (i + 1)
    | none => if c = '.' then some 0 else none

/-- Node's `path.extname` on ordinary POSIX file names: the basename's
suffix from its last `.`, empty when there is no dot or the only dot is
the basename's first character. -/
def extname (p : String) : String :=
  let base := (p.toList.reverse.takeWhile (fun c => !(c = '/' : Bool))).reverse
  match lastDotIndex base with
  | none => ""
  | some 0 => ""
  | some i => String.mk (base.drop i)

/-- JS `String.prototype.toLowerCase` on ASCII names. -/
def jsToLowerCase (s : String) : String :=
  String.mk (s.toList.map Char.toLower)

/-- Function `shouldProcessFile(filePath)`: the lower-cased extension must be in
the `scannerExtensions` allow-list (the list itself lives outside this
module, so it is passed in). -/
def shouldProcessFile (scannerExtensions : List String) (filePath : String) : Bool :=
  scannerExtensions.contains (jsToLowerCase (extname filePath))

/- ======================= Events and the shared store ======================= -/

/-- A `GitWatcherEvent` (modelled from the spec's collaborator contract:
`{type, branch, isBaseBranch, watcher-handle, ...type-specific fields}`).
The handle is an `Option Nat` so that the full space of runtime values,
including a null handle, is representable. -/
inductive GitWatcherEvent where
  | scanStart (watcher : Option Nat) (branch : String) (isBaseBranch : Bool)
  | scanEnd (watcher : Option Nat) (branch : String) (isBaseBranch : Bool)
  | fileChanged (watcher : Option Nat) (branch : String) (isBaseBranch : Bool)
      (filePath : String) (fileHash : String)
  | fileDeleted (watcher : Option Nat) (branch : String) (isBaseBranch : Bool)
      (filePath : String)
  | branchChanged (watcher : Option Nat) (branch : String) (isBaseBranch : Bool)
      (previousBranch : String) (newBranch : String)
deriving DecidableEq

/-- The handle carried by an event. -/
def GitWatcherEvent.watcher : GitWatcherEvent → Option Nat
  | .scanStart w _ _ => w
  | .scanEnd w _ _ => w
  | .fileChanged w _ _ _ _ => w
  | .fileDeleted w _ _ _ => w
  | .branchChanged w _ _ _ _ => w

/-- The shared Jotai store: folder registry, manifest cache, upload
queue, global error list, active flag, and the config snapshot. -/
structure IndexerState where
  workspaceFolders : FolderRegistry
  manifestCache : ManifestCache
  fileUpsertQueue : List FileUpsertTask
  errors : List ManagedIndexerError
  isActive : Bool
  config : ConfigState
deriving DecidableEq

/- ======================= Event handlers (git-events) ======================= -/

/-- Handler `handleScanStart`: mark the folder as indexing and clear its error. -/
def handleScanStart (folder : WorkspaceFolderState) (s : IndexerState) : IndexerState :=
  let u : FolderUpdate := { isIndexing := some true, lastError := some none }
  { s with workspaceFolders := updateWorkspaceFolder s.workspaceFolders folder.folder.fsPath u }

/-- Handler `handleScanEnd`: clear the folder's indexing flag. -/
def handleScanEnd (folder : WorkspaceFolderState) (s : IndexerState) : IndexerState :=
  let u : FolderUpdate := { isIndexing := some false }
  { s with workspaceFolders := updateWorkspaceFolder s.workspaceFolders folder.folder.fsPath u }

/-- Handler `handleFileChanged`: skip unsupported extensions, skip on missing
config, otherwise get-or-fetch the manifest and enqueue an upsert task
unless the file is already indexed; a fetch failure is recorded in the
global error list (type `file-upsert`) and swallowed. -/
def handleFileChanged (env : Env) (folder : WorkspaceFolderState)
    (branch : String) (isBaseBranch : Bool) (filePath fileHash : String)
    (s : IndexerState) : IndexerState :=
  if !(shouldProcessFile env.scannerExtensions filePath) then s
  else if !(isTruthy s.config.token) || !(isTruthy s.config.organizationId)
      || !(isTruthy folder.projectId) then s
  else
    let params : ManifestFetchParams :=
      { organizationId := s.config.organizationId.getD "",
        projectId := folder.projectId.getD "",
        branch := branch,
        token := s.config.token.getD "" }
    match getOrFetchManifest env params s.manifestCache env.now env.now2 env.freshPid with
    | (c', .ok manifest) =>
      let s1 := { s with manifestCache := c' }
      if isFileIndexed manifest filePath fileHash then s1
      else
        let task := createFileUpsertTask filePath fileHash branch isBaseBranch
          (folder.projectId.getD "") folder.folder.fsPath
        { s1 with fileUpsertQueue := s1.fileUpsertQueue ++ [task] }
    | (c', .error e) =>
      let errObj := createError .fileUpsert e
        [("filePath", filePath), ("branch", branch), ("operation", "queue-file-upsert")]
      { s with manifestCache := c', errors := s.errors ++ [errObj] }

/-- Function `updateWorkspaceFolderBranch(state, newBranch)`: re-resolve the
project config; on success commit the branch, the (possibly unchanged)
project id and clear the error; on failure commit the branch and attach a
`config` error.  The branch field is committed in both cases. -/
def updateWorkspaceFolderBranch (env : Env) (state : WorkspaceFolderState)
    (newBranch : String) : FolderUpdate :=
  let repoUrlArg := if isTruthy state.repositoryUrl then state.repositoryUrl else none
  match env.kiloConfig state.folder.fsPath repoUrlArg with
  | .ok cfg =>
    let projectId := jsOrString (cfg.bind (fun c => c.projectId)) state.projectId
    { gitBranch := some (some newBranch), projectId := some projectId,
      lastError := some none }
  | .error e =>
    { gitBranch := some (some newBranch),
      lastError := some (some (createError .config e
        [("operation", "update-branch"), ("branch", newBranch)])) }

/-- Handler `handleBranchChanged`: commit the branch update, then re-fetch the
manifest for the new branch when the config is complete; a fetch failure
is caught and recorded as a `manifest` error on the folder (the branch
commit is not rolled back, and no exception escapes — the handler is a
total function because the `catch` swallows the only throwing call). -/
def handleBranchChanged (env : Env) (folder : WorkspaceFolderState)
    (newBranch : String) (s : IndexerState) : IndexerState :=
  let updates := updateWorkspaceFolderBranch env folder newBranch
  let reg1 := updateWorkspaceFolder s.workspaceFolders folder.folder.fsPath updates
  let s1 := { s with workspaceFolders := reg1 }
  if isTruthy s.config.token && isTruthy s.config.organizationId
      && isTruthy folder.projectId then
    let projectId := jsOrString (updates.projectId.getD none) folder.projectId
    let params : ManifestFetchParams :=
      { organizationId := s.config.organizationId.getD "",
        projectId := projectId.getD "",
        branch := newBranch,
        token := s.config.token.getD "" }
    match getOrFetchManifest env params s1.manifestCache env.now env.now2 env.freshPid with
    | (c', .ok _) => { s1 with manifestCache := c' }
    | (c', .error e) =>
      let errObj := createError .manifest e
        [("branch", newBranch), ("operation", "branch-change")]
      let s2 := { s1 with manifestCache := c' }
      let u : FolderUpdate := { lastError := some (some errObj) }
      { s2 with workspaceFolders := updateWorkspaceFolder s2.workspaceFolders folder.folder.fsPath u }
  else s1

/-- Dispatcher `processGitEvent(event)`: drop events from unknown watchers, drop
events for incompletely initialized folders (falsy `projectId` or
`gitBranch`), otherwise dispatch on the event type (`file-deleted` is
logged only). -/
def processGitEvent (env : Env) (e : GitWatcherEvent) (s : IndexerState) : IndexerState :=
  match findWorkspaceFolderByWatcher s.workspaceFolders e.watcher with
  | none => s
  | some folder =>
    if !(isTruthy folder.projectId) || !(isTruthy folder.gitBranch) then s
    else
      match e with
      | .scanStart _ _ _ => handleScanStart folder s
      | .scanEnd _ _ _ => handleScanEnd folder s
      | .fileChanged _ branch isBase filePath fileHash =>
        handleFileChanged env folder branch isBase filePath fileHash s
      | .fileDeleted _ _ _ _ => s
      | .branchChanged _ _ _ _ newBranch => handleBranchChanged env folder newBranch s

/- ======================= Orchestrator lifecycle ======================= -/

/-- Method `ManagedIndexer.dispose()`: clear the registry, the upload queue and
the error list and drop the active flag.  (Watcher disposal and interval
teardown are external side effects; the manifest cache atom is not
cleared by `dispose`.) -/
def dispose (s : IndexerState) : IndexerState :=
  { s with workspaceFolders := [], isActive := false, fileUpsertQueue := [], errors := [] }

/-- Method `ManagedIndexer.handleGitEvent` (the body of `onEvent`): a guaranteed
no-op while inactive, otherwise `processGitEvent` with all errors caught. -/
def handleGitEvent (env : Env) (e : GitWatcherEvent) (s : IndexerState) : IndexerState :=
  if s.isActive then processGitEvent env e s else s

/- ======================= start(): folder discovery ======================= -/

/-- Git information gathered by `fetchGitInfo`: the repository url as
reported (possibly absent before the `|| ""` normalization) and the
current branch. -/
structure GitInfo where
  repositoryUrl : Option String
  branch : String
deriving DecidableEq

/-- Outcomes of the per-folder external calls made during `start()`:
the `isGitRepository` check, `fetchGitInfo`, `getKilocodeConfig`, and
watcher construction (`some id` when `new GitWatcher` succeeds). -/
structure FolderEnv where
  folder : WorkspaceFolder
  isGitRepo : Except String Bool
  gitInfo : Except String GitInfo
  kiloConfig : Except String (Option KilocodeProjectConfig)
  watcherId : Option Nat

/-- Function `initializeWorkspaceFolder(folder, config)`: `null` when the folder
is not a git repository or yields no truthy project id; a full state on
success; on a thrown error, a state with null fields and a `setup`
error. -/
def initializeWorkspaceFolder (fe : FolderEnv) : Option WorkspaceFolderState :=
  let errorState := fun (msg : String) =>
    some { folder := fe.folder, gitBranch := none, projectId := none,
           repositoryUrl := none, isIndexing := false, watcher := none,
           lastError := some (createError .setup msg [("operation", "initialize-workspace")]) }
  match fe.isGitRepo with
  | .error e => errorState e
  | .ok false => none
  | .ok true =>
    match fe.gitInfo with
    | .error e => errorState e
    | .ok gi =>
      match fe.kiloConfig with
      | .error e => errorState e
      | .ok cfg =>
        let projectId := cfg.bind (fun c => c.projectId)
        if !(isTruthy projectId) then none
        else
          some { folder := fe.folder, gitBranch := some gi.branch,
                 projectId := projectId,
                 repositoryUrl := some (gi.repositoryUrl.getD ""),
                 isIndexing := false, watcher := none, lastError := none }

/-- Method `ManagedIndexer.setupWorkspaceFolder(state)`: `null` when config or
project id is missing; otherwise fetch the initial manifest through the
cache and attach a watcher.  A manifest-fetch failure (or a watcher
creation failure, which throws into the same `catch`) retains the folder
with a `manifest`-typed `lastError` and a null watcher. -/
def setupWorkspaceFolder (env : Env) (config : ConfigState) (fe : FolderEnv)
    (st : WorkspaceFolderState) (cache : ManifestCache) :
    Option WorkspaceFolderState × ManifestCache :=
  if !(isTruthy config.token) || !(isTruthy config.organizationId)
      || !(isTruthy st.projectId) then (none, cache)
  else
    let params : ManifestFetchParams :=
      { organizationId := config.organizationId.getD "",
        projectId := st.projectId.getD "",
        branch := st.gitBranch.getD "",
        token := config.token.getD "" }
    let ctx := [("operation", "setup-workspace")] ++
      (match st.gitBranch with | some b => [("branch", b)] | none => [])
    match getOrFetchManifest env params cache env.now env.now2 env.freshPid with
    | (cache', .ok _) =>
      match fe.watcherId with
      | some w => (some { st with watcher := some w }, cache')
      | none =>
        (some { st with lastError := some (createError .manifest "Failed to create watcher" ctx) },
         cache')
    | (cache', .error e) =>
      (some { st with lastError := some (createError .manifest e ctx) }, cache')

/-- The registry-construction portion of `ManagedIndexer.start()` (after the
config, workspace-folder and entitlement gates): initialize each folder,
drop the `null` ones, run setup on the rest, and collect the surviving
states into the folder map. -/
def startFolders (env : Env) (config : ConfigState) :
    List FolderEnv → FolderRegistry → ManifestCache → FolderRegistry × ManifestCache
  | [], reg, cache => (reg, cache)
  | fe :: rest, reg, cache =>
    match initializeWorkspaceFolder fe with
    | none => startFolders env config rest reg cache
    | some st =>
      match setupWorkspaceFolder env config fe st cache with
      | (none, cache') => startFolders env config rest reg cache'
      | (some st', cache') =>
        startFolders env config rest (mapSet reg fe.folder.fsPath st') cache'

/- ============ Concurrent-caller apparatus for the manifest cache ============ -/

/-- Value a caller of `getOrFetchManifest` eventually resolves to, given
the synchronous outcome of its call: a joined caller gets the pending
promise's value, a cache hit gets the cached manifest, the starting
caller gets the underlying fetch's result. -/
def resolveOutcome (env : Env) (params : ManifestFetchParams) :
    FetchOutcome → Except String ServerManifest
  | .joined p => env.pendingResult p
  | .cached m => .ok m
  | .started _ => env.fetchManifest params

/-- Number of underlying fetches issued by a list of call outcomes. -/
def countStarted : List FetchOutcome → Nat
  | [] => 0
  | .started _ :: rest => countStarted rest + 1
  | .joined _ :: rest => countStarted rest
  | .cached _ :: rest => countStarted rest

/-- Run the synchronous prefix of `getOrFetchManifest` once per caller
(each caller has its own `Date.now()` reading and fresh promise id),
threading the cache: this is the interleaving in which every caller
reaches its cache check while an earlier fetch is still in flight. -/
def startMany (params : ManifestFetchParams) :
    List (Int × Nat) → ManifestCache → List FetchOutcome × ManifestCache
  | [], cache => ([], cache)
  | (now, pid) :: rest, cache =>
    let o := getOrFetchManifestStart params cache now pid
    let os := startMany params rest o.2
    (o.1 :: os.1, os.2)

theorem getOrFetchManifestStart_inflight (params : ManifestFetchParams)
    (cache : ManifestCache) (now : Int) (pid : Nat) (entry : ManifestCacheEntry) (p : Nat)
    (hGet : mapGet cache (getManifestCacheKey params.projectId params.branch) = some entry)
    (hP : entry.fetchPromise = some p) :
    getOrFetchManifestStart params cache now pid = (.joined p, cache) := by
  simp [getOrFetchManifestStart, hGet, hP]

theorem countStarted_replicate_joined (n : Nat) (p : Nat) :
    countStarted (List.replicate n (.joined p)) = 0 := by
  induction n with
  | zero => simp [List.replicate, countStarted]
  | succ k ih => simp [List.replicate, countStarted, ih]

/-- C1: while a fetch for `(projectId, branch)` is in flight (the cache
entry's `fetchPromise` is the non-null promise `p`), any call to
`getOrFetchManifest` returns that same pending promise's value and leaves
the cache unchanged; consequently any number of concurrent callers
reaching the cache in that window all join promise `p`, zero new
underlying fetches are issued, and every caller resolves to the same
manifest value (the resolution of `p`). -/
theorem c1_inflight_fetch_dedup (env : Env) (params : ManifestFetchParams)
    (cache : ManifestCache) (entry : ManifestCacheEntry) (p : Nat)
    (now now2 : Int) (pid : Nat) (callers : List (Int × Nat))
    (hGet : mapGet cache (getManifestCacheKey params.projectId params.branch) = some entry)
    (hP : entry.fetchPromise = some p) :
    getOrFetchManifest env params cache now now2 pid = (cache, env.pendingResult p) ∧
    startMany params callers cache = (List.replicate callers.length (.joined p), cache) ∧
    countStarted (startMany params callers cache).1 = 0 ∧
    (startMany params callers cache).1.map (resolveOutcome env params) =
      List.replicate callers.length (env.pendingResult p) := by
  have hstart : ∀ t q, getOrFetchManifestStart params cache t q = (.joined p, cache) :=
    fun t q => getOrFetchManifestStart_inflight params cache t q entry p hGet hP
  have hmany : startMany params callers cache =
      (List.replicate callers.length (.joined p), cache) := by
    induction callers with
    | nil => simp [startMany]
    | cons hd tl ih =>
      cases hd with
      | mk t q => simp [startMany, hstart, ih, List.replicate]
  refine ⟨?_, hmany, ?_, ?_⟩
  · simp [getOrFetchManifest, hstart]
  · rw [hmany]
    exact countStarted_replicate_joined callers.length p
  · rw [hmany]
    simp [resolveOutcome]

/-- Witness for C1 at a concrete in-flight cache entry and two concurrent
callers. -/
theorem c1_inflight_fetch_dedup_witness :
    getOrFetchManifest
        { fetchManifest := fun _ => .error "network error",
          pendingResult := fun _ => .ok { files := [] },
          kiloConfig := fun _ _ => .ok none,
          scannerExtensions := [".ts"], now := 0, now2 := 1, freshPid := 42 }
        { organizationId := "o", projectId := "p", branch := "b", token := "t" }
        ([("p:b", { manifest := none, fetchedAt := 0, fetchPromise := some 7 })]) 3 4 8 =
      (([("p:b", { manifest := none, fetchedAt := 0, fetchPromise := some 7 })]), .ok { files := [] }) ∧
    startMany { organizationId := "o", projectId := "p", branch := "b", token := "t" }
        [(1, 9), (2, 10)]
        ([("p:b", { manifest := none, fetchedAt := 0, fetchPromise := some 7 })]) =
      (List.replicate 2 (.joined 7),
       ([("p:b", { manifest := none, fetchedAt := 0, fetchPromise := some 7 })])) ∧
    countStarted (startMany { organizationId := "o", projectId := "p", branch := "b", token := "t" }
        [(1, 9), (2, 10)]
        ([("p:b", { manifest := none, fetchedAt := 0, fetchPromise := some 7 })])).1 = 0 ∧
    (startMany { organizationId := "o", projectId := "p", branch := "b", token := "t" }
        [(1, 9), (2, 10)]
        ([("p:b", { manifest := none, fetchedAt := 0, fetchPromise := some 7 })])).1.map
        (resolveOutcome
          { fetchManifest := fun _ => .error "network error",
            pendingResult := fun _ => .ok { files := [] },
            kiloConfig := fun _ _ => .ok none,
            scannerExtensions := [".ts"], now := 0, now2 := 1, freshPid := 42 }
          { organizationId := "o", projectId := "p", branch := "b", token := "t" }) =
      List.replicate 2 (.ok { files := [] }) :=
  c1_inflight_fetch_dedup _ _ _
    { manifest := none, fetchedAt := 0, fetchPromise := some 7 } 7 3 4 8 [(1, 9), (2, 10)]
    (by rfl) (by rfl)

/-- C2 counterexample: an entry fetched at `T = 0` is still served from
the cache at `T' = T + TTL` exactly (age `= maxAgeMs` is not `>` it), so
no new fetch is issued there, contradicting the claim's `T' ≥ T + TTL`
bound for re-fetching. -/
theorem c2_ttl_boundary_counterexample :
    (300000 : Int) ≥ 0 + manifestTtlMs ∧
    getCachedManifest
        ([("p:b", { manifest := some { files := [] }, fetchedAt := 0, fetchPromise := none })])
        "p:b" 300000 manifestTtlMs = some { files := [] } ∧
    getOrFetchManifestStart
        { organizationId := "o", projectId := "p", branch := "b", token := "t" }
        ([("p:b", { manifest := some { files := [] }, fetchedAt := 0, fetchPromise := none })])
        300000 5 =
      (.cached { files := [] },
       ([("p:b", { manifest := some { files := [] }, fetchedAt := 0, fetchPromise := none })])) := by
  refine ⟨by decide, by decide, by decide⟩

/-- C2 (amended): for a cache entry with a manifest fetched at `T` and no
pending fetch, a request at `T'` is served from the cache (no new fetch,
cache unchanged) when `T' - T ≤ TTL`, and issues a new fetch when
`T' - T > TTL`.  The strict/non-strict boundary at exactly `T' = T + TTL`
is the only change from the claim as stated. -/
theorem c2_ttl_fresh_window (env : Env) (params : ManifestFetchParams)
    (cache : ManifestCache) (m : ServerManifest) (T T' now2 : Int) (pid : Nat)
    (hGet : mapGet cache (getManifestCacheKey params.projectId params.branch) =
      some { manifest := some m, fetchedAt := T, fetchPromise := none }) :
    (T' - T ≤ manifestTtlMs →
      getOrFetchManifestStart params cache T' pid = (.cached m, cache) ∧
      getOrFetchManifest env params cache T' now2 pid = (cache, .ok m)) ∧
    (T' - T > manifestTtlMs →
      getOrFetchManifestStart params cache T' pid =
        (.started pid,
         mapSet cache (getManifestCacheKey params.projectId params.branch)
           { manifest := none, fetchedAt := T', fetchPromise := some pid })) := by
  constructor
  · intro h
    have hcond : ¬(T' - T > manifestTtlMs) := by omega
    have hc : getOrFetchManifestStart params cache T' pid = (.cached m, cache) := by
      simp [getOrFetchManifestStart, getCachedManifest, hGet, hcond]
    exact ⟨hc, by simp [getOrFetchManifest, hc]⟩
  · intro h
    simp [getOrFetchManifestStart, getCachedManifest, hGet, h]

/-- Witness for C2 (amended) at a concrete entry fetched at `T = 10`:
served from cache at `T' = 20`, fetched anew at `T' = 300011`. -/
theorem c2_ttl_fresh_window_witness :
    getOrFetchManifestStart
        { organizationId := "o", projectId := "p", branch := "b", token := "t" }
        ([("p:b", { manifest := some { files := [] }, fetchedAt := 10, fetchPromise := none })])
        20 5 =
      (.cached { files := [] },
       ([("p:b", { manifest := some { files := [] }, fetchedAt := 10, fetchPromise := none })])) ∧
    getOrFetchManifestStart
        { organizationId := "o", projectId := "p", branch := "b", token := "t" }
        ([("p:b", { manifest := some { files := [] }, fetchedAt := 10, fetchPromise := none })])
        300011 5 =
      (.started 5,
       mapSet ([("p:b", { manifest := some { files := [] }, fetchedAt := 10, fetchPromise := none })])
         "p:b" { manifest := none, fetchedAt := 300011, fetchPromise := some 5 }) :=
  ⟨((c2_ttl_fresh_window
      { fetchManifest := fun _ => .error "network error",
        pendingResult := fun _ => .ok { files := [] },
        kiloConfig := fun _ _ => .ok none,
        scannerExtensions := [".ts"], now := 0, now2 := 1, freshPid := 42 }
      _ _ _ 10 20 0 5 (by rfl)).1 (by decide)).1,
   (c2_ttl_fresh_window
      { fetchManifest := fun _ => .error "network error",
        pendingResult := fun _ => .ok { files := [] },
        kiloConfig := fun _ _ => .ok none,
        scannerExtensions := [".ts"], now := 0, now2 := 1, freshPid := 42 }
      _ _ _ 10 300011 0 5 (by rfl)).2 (by decide)⟩

/-- C6 counterexample: in a manifest holding two entries for the same
path with different hashes, changing only the hash argument from `"h1"`
to the different value `"h2"` does NOT flip the result to false. -/
theorem c6_duplicate_path_counterexample :
    isFileIndexed { files := [{ filePath := "a.ts", fileHash := "h1" },
                              { filePath := "a.ts", fileHash := "h2" }] } "a.ts" "h1" = true ∧
    ("h2" : String) ≠ "h1" ∧
    isFileIndexed { files := [{ filePath := "a.ts", fileHash := "h1" },
                              { filePath := "a.ts", fileHash := "h2" }] } "a.ts" "h2" = true := by
  refine ⟨by decide, by decide, by decide⟩

/-- C6 (amended): `isFileIndexed` is true iff some manifest entry matches
path and hash exactly; and when every entry for the path carries hash `h`
(in particular when the path has a single entry), any different hash
argument makes the result false.  The uniqueness proviso is the only
change from the claim as stated. -/
theorem c6_exact_path_hash_match (manifest : ServerManifest) (path hash hash' : String) :
    (isFileIndexed manifest path hash = true ↔
      ∃ f ∈ manifest.files, f.filePath = path ∧ f.fileHash = hash) ∧
    ((∀ f ∈ manifest.files, f.filePath = path → f.fileHash = hash) → hash' ≠ hash →
      isFileIndexed manifest path hash' = false) := by
  constructor
  · simp [isFileIndexed, List.any_eq_true]
  · intro hall hne
    simp only [isFileIndexed, List.any_eq_false, Bool.and_eq_true, beq_iff_eq, not_and]
    intro f hf hp
    intro hh
    exact hne (hh ▸ hall f hf hp)

/-- Witness for C6 (amended) on a single-entry manifest: changing the
hash flips the result to false. -/
theorem c6_exact_path_hash_match_witness :
    isFileIndexed { files := [{ filePath := "a.ts", fileHash := "h1" }] } "a.ts" "h2" = false :=
  (c6_exact_path_hash_match
    { files := [{ filePath := "a.ts", fileHash := "h1" }] } "a.ts" "h1" "h2").2
    (by decide) (by decide)

/-- C7: when `getOrFetchManifest` actually starts a fetch (no promise in
flight, no fresh cached manifest) and the underlying fetch fails, the
cache entry for the key is deleted entirely — the final cache has no
entry for the key — and the error is propagated to the caller. -/
theorem c7_fetch_failure_evicts (env : Env) (params : ManifestFetchParams)
    (cache : ManifestCache) (now now2 : Int) (pid : Nat) (e : String)
    (hNoFlight : (mapGet cache (getManifestCacheKey params.projectId params.branch)).bind
      (fun en => en.fetchPromise) = none)
    (hNoFresh : getCachedManifest cache (getManifestCacheKey params.projectId params.branch)
      now manifestTtlMs = none)
    (hFail : env.fetchManifest params = .error e) :
    getOrFetchManifest env params cache now now2 pid =
      (mapDelete
        (mapSet cache (getManifestCacheKey params.projectId params.branch)
          { manifest := none, fetchedAt := now, fetchPromise := some pid })
        (getManifestCacheKey params.projectId params.branch), .error e) ∧
    mapGet (getOrFetchManifest env params cache now now2 pid).1
      (getManifestCacheKey params.projectId params.branch) = none := by
  have hs : getOrFetchManifestStart params cache now pid =
      (.started pid,
       mapSet cache (getManifestCacheKey params.projectId params.branch)
         { manifest := none, fetchedAt := now, fetchPromise := some pid }) := by
    simp [getOrFetchManifestStart, hNoFlight, hNoFresh]
  constructor
  · simp [getOrFetchManifest, hs, hFail]
  · simp [getOrFetchManifest, hs, hFail, mapGet_mapDelete_self]

/-- Witness for C7 on an empty cache with a failing fetch collaborator. -/
theorem c7_fetch_failure_evicts_witness :
    getOrFetchManifest
        { fetchManifest := fun _ => .error "network error",
          pendingResult := fun _ => .ok { files := [] },
          kiloConfig := fun _ _ => .ok none,
          scannerExtensions := [".ts"], now := 0, now2 := 1, freshPid := 42 }
        { organizationId := "o", projectId := "p", branch := "b", token := "t" }
        ([] : ManifestCache) 0 1 5 =
      (mapDelete
        (mapSet ([] : ManifestCache) "p:b"
          { manifest := none, fetchedAt := 0, fetchPromise := some 5 }) "p:b", .error "network error") ∧
    mapGet (getOrFetchManifest
        { fetchManifest := fun _ => .error "network error",
          pendingResult := fun _ => .ok { files := [] },
          kiloConfig := fun _ _ => .ok none,
          scannerExtensions := [".ts"], now := 0, now2 := 1, freshPid := 42 }
        { organizationId := "o", projectId := "p", branch := "b", token := "t" }
        ([] : ManifestCache) 0 1 5).1 "p:b" = none :=
  c7_fetch_failure_evicts _ _ _ 0 1 5 "network error" (by rfl) (by rfl) (by rfl)

/- ============ Registry lemmas shared by the event-machine claims ============ -/

theorem findWorkspaceFolderByWatcher_watcher {fs : FolderRegistry} {w : Option Nat}
    {f : WorkspaceFolderState} (h : findWorkspaceFolderByWatcher fs w = some f) :
    f.watcher = w := by
  induction fs with
  | nil => simp [findWorkspaceFolderByWatcher] at h
  | cons hd tl ih =>
    cases hd with
    | mk k st =>
      by_cases hw : st.watcher = w
      · simp [findWorkspaceFolderByWatcher, hw] at h
        subst h
        exact hw
      · simp [findWorkspaceFolderByWatcher, hw] at h
        exact ih h

theorem findWorkspaceFolderByWatcher_mem {fs : FolderRegistry} {w : Option Nat}
    {f : WorkspaceFolderState} (h : findWorkspaceFolderByWatcher fs w = some f) :
    ∃ k, (k, f) ∈ fs := by
  induction fs with
  | nil => simp [findWorkspaceFolderByWatcher] at h
  | cons hd tl ih =>
    cases hd with
    | mk k st =>
      by_cases hw : st.watcher = w
      · simp [findWorkspaceFolderByWatcher, hw] at h
        subst h
        exact ⟨k, List.mem_cons_self _ _⟩
      · simp [findWorkspaceFolderByWatcher, hw] at h
        obtain ⟨k', hk'⟩ := ih h
        exact ⟨k', List.mem_cons_of_mem _ hk'⟩

/-- In an association list with nodup keys, a key determines its value. -/
theorem assoc_nodup_unique {α : Type} {l : List (String × α)}
    (hnd : (l.map Prod.fst).Nodup) {k : String} {v w : α}
    (hv : (k, v) ∈ l) (hw : (k, w) ∈ l) : v = w := by
  induction l with
  | nil => cases hv
  | cons hd tl ih =>
    rw [List.map_cons, List.nodup_cons] at hnd
    rcases List.mem_cons.mp hv with hv1 | hv1 <;>
      rcases List.mem_cons.mp hw with hw1 | hw1
    · exact congrArg Prod.snd (hv1.trans hw1.symm)
    · exfalso
      apply hnd.1
      rw [← hv1]
      exact List.mem_map.mpr ⟨(k, w), hw1, rfl⟩
    · exfalso
      apply hnd.1
      rw [← hw1]
      exact List.mem_map.mpr ⟨(k, v), hv1, rfl⟩
    · exact ih hnd.2 hv1 hw1

theorem mapGet_updateWorkspaceFolder_other (m : FolderRegistry) (k path : String)
    (u : FolderUpdate) (h : k ≠ path) :
    mapGet (updateWorkspaceFolder m k u) path = mapGet m path := by
  unfold updateWorkspaceFolder
  cases mapGet m k with
  | none => rfl
  | some ex => exact mapGet_mapSet_other m k path _ h

theorem handleFileChanged_workspaceFolders (env : Env) (folder : WorkspaceFolderState)
    (branch : String) (isBase : Bool) (filePath fileHash : String) (s : IndexerState) :
    (handleFileChanged env folder branch isBase filePath fileHash s).workspaceFolders =
      s.workspaceFolders := by
  unfold handleFileChanged
  split
  · rfl
  · split
    · rfl
    · dsimp only
      split
      · split <;> rfl
      · rfl

/- ======================= C5: dispose quiesces ======================= -/

/-- C5: after `dispose()` the folder registry is empty, `isActive` is
false and the upload queue is empty; and any event subsequently delivered
to `onEvent`/`handleGitEvent` or directly to `processGitEvent` leaves the
whole store (registry, cache, queue, errors) unchanged, for every event
content. -/
theorem c5_dispose_quiesces (env : Env) (e : GitWatcherEvent) (s : IndexerState) :
    (dispose s).workspaceFolders = [] ∧
    (dispose s).isActive = false ∧
    (dispose s).fileUpsertQueue = [] ∧
    handleGitEvent env e (dispose s) = dispose s ∧
    processGitEvent env e (dispose s) = dispose s := by
  refine ⟨rfl, rfl, rfl, ?_, ?_⟩
  · simp [handleGitEvent, dispose]
  · simp [processGitEvent, dispose, findWorkspaceFolderByWatcher]

/- ======================= C8: unsupported extension ======================= -/

/-- C8: a `file-changed` event for a file whose (lower-cased) extension
is not in the `scannerExtensions` allow-list leaves the entire store
unchanged — no task is enqueued and no registry or cache mutation occurs,
whatever the manifest, cache or configuration state. -/
theorem c8_unsupported_extension_noop (env : Env) (s : IndexerState)
    (w : Option Nat) (branch : String) (isBase : Bool) (filePath fileHash : String)
    (hExt : shouldProcessFile env.scannerExtensions filePath = false) :
    processGitEvent env (.fileChanged w branch isBase filePath fileHash) s = s := by
  unfold processGitEvent
  cases hF : findWorkspaceFolderByWatcher s.workspaceFolders
      (GitWatcherEvent.fileChanged w branch isBase filePath fileHash).watcher with
  | none => rfl
  | some folder =>
    simp only []
    split
    · rfl
    · simp [handleFileChanged, hExt]

/-- Concrete folder and store used to witness C8: a fully initialized
folder with an attached watcher and complete configuration. -/
def folderC8 : WorkspaceFolderState :=
  { folder := { fsPath := "/w", name := "w" }, gitBranch := some "main",
    projectId := some "p1", repositoryUrl := some "https://example.test/r.git",
    isIndexing := false, watcher := some 3, lastError := none }

def stateC8 : IndexerState :=
  { workspaceFolders := [("/w", folderC8)], manifestCache := [],
    fileUpsertQueue := [], errors := [], isActive := true,
    config := { token := some "t", organizationId := some "o",
                testerWarningsDisabledUntil := none } }

def envC8 : Env :=
  { fetchManifest := fun _ => .ok { files := [] },
    pendingResult := fun _ => .ok { files := [] },
    kiloConfig := fun _ _ => .ok none,
    scannerExtensions := [".ts", ".js"], now := 0, now2 := 1, freshPid := 42 }

/-- Witness for C8: a `.md` change against a registered, fully
configured folder enqueues nothing and changes nothing. -/
theorem c8_unsupported_extension_noop_witness :
    processGitEvent envC8 (.fileChanged (some 3) "main" true "notes.md" "h1") stateC8 = stateC8 :=
  c8_unsupported_extension_noop envC8 stateC8 (some 3) "main" true "notes.md" "h1" (by decide)

/- =============== C10: incompletely initialized folder =============== -/

/-- C10: an event whose watcher matches a registered folder whose
`projectId` or `gitBranch` is null is dropped by `processGitEvent`
without any state mutation — registry, manifest cache, upload queue and
error list are all unchanged — for every event type. -/
theorem c10_incomplete_folder_event_noop (env : Env) (e : GitWatcherEvent) (s : IndexerState)
    (folder : WorkspaceFolderState)
    (hFind : findWorkspaceFolderByWatcher s.workspaceFolders e.watcher = some folder)
    (hNull : folder.projectId = none ∨ folder.gitBranch = none) :
    processGitEvent env e s = s := by
  rcases hNull with h | h <;> simp [processGitEvent, hFind, isTruthy, h]

/-- Concrete folder and store used to witness C10: a registered folder
with a watcher but no resolved project id. -/
def folderC10 : WorkspaceFolderState :=
  { folder := { fsPath := "/w", name := "w" }, gitBranch := some "main",
    projectId := none, repositoryUrl := none,
    isIndexing := false, watcher := some 3, lastError := none }

def stateC10 : IndexerState :=
  { workspaceFolders := [("/w", folderC10)], manifestCache := [],
    fileUpsertQueue := [], errors := [], isActive := true,
    config := { token := some "t", organizationId := some "o",
                testerWarningsDisabledUntil := none } }

/-- Witness for C10 on a scan-start event for the incomplete folder. -/
theorem c10_incomplete_folder_event_noop_witness :
    processGitEvent envC8 (.scanStart (some 3) "main" true) stateC10 = stateC10 :=
  c10_incomplete_folder_event_noop envC8 (.scanStart (some 3) "main" true) stateC10
    folderC10 (by rfl) (Or.inl rfl)

/- =============== C4: branch change always commits the branch =============== -/

theorem updateWorkspaceFolderBranch_gitBranch (env : Env) (f : WorkspaceFolderState)
    (nb : String) : (updateWorkspaceFolderBranch env f nb).gitBranch = some (some nb) := by
  unfold updateWorkspaceFolderBranch
  dsimp only
  split <;> rfl

theorem updateWorkspaceFolder_of_get (m : FolderRegistry) (k : String)
    (st : WorkspaceFolderState) (u : FolderUpdate) (h : mapGet m k = some st) :
    updateWorkspaceFolder m k u = mapSet m k (applyFolderUpdate st u) := by
  unfold updateWorkspaceFolder
  rw [h]

theorem getOrFetchManifest_empty_fail (env : Env) (q : ManifestFetchParams)
    (t t2 : Int) (pd : Nat) (msg : String) (hFail : env.fetchManifest q = .error msg) :
    getOrFetchManifest env q [] t t2 pd = ([], .error msg) := by
  simp [getOrFetchManifest, getOrFetchManifestStart, getCachedManifest, mapGet, hFail,
    mapSet, mapDelete]

theorem handleBranchChanged_gitBranch (env : Env) (folder : WorkspaceFolderState)
    (nb : String) (s : IndexerState)
    (hSelf : mapGet s.workspaceFolders folder.folder.fsPath = some folder) :
    (mapGet (handleBranchChanged env folder nb s).workspaceFolders
        folder.folder.fsPath).map (fun st => st.gitBranch) = some (some nb) := by
  have hmergedGb : (applyFolderUpdate folder (updateWorkspaceFolderBranch env folder nb)).gitBranch
      = some nb := by
    simp [applyFolderUpdate, updateWorkspaceFolderBranch_gitBranch]
  have hget1 : mapGet (updateWorkspaceFolder s.workspaceFolders folder.folder.fsPath
      (updateWorkspaceFolderBranch env folder nb)) folder.folder.fsPath =
      some (applyFolderUpdate folder (updateWorkspaceFolderBranch env folder nb)) := by
    rw [updateWorkspaceFolder_of_get _ _ _ _ hSelf]
    exact mapGet_mapSet_self _ _ _
  unfold handleBranchChanged
  dsimp only
  by_cases hcond : (isTruthy s.config.token && isTruthy s.config.organizationId
      && isTruthy folder.projectId) = true
  all_goals simp only [hcond, if_true, if_false, Bool.false_eq_true]
  case pos =>
    rcases hm : getOrFetchManifest env
        { organizationId := s.config.organizationId.getD "",
          projectId := (jsOrString ((updateWorkspaceFolderBranch env folder nb).projectId.getD none)
            folder.projectId).getD "",
          branch := nb, token := s.config.token.getD "" }
        s.manifestCache env.now env.now2 env.freshPid with hmpair
    cases hmpair with
    | mk c r =>
      cases r with
      | ok m =>
        dsimp only
        rw [hget1]
        simp [hmergedGb]
      | error e =>
        dsimp only
        rw [updateWorkspaceFolder_of_get _ _ _ _ hget1]
        rw [mapGet_mapSet_self]
        simp [applyFolderUpdate, hmergedGb, updateWorkspaceFolderBranch_gitBranch]
  case neg =>
    rw [hget1]
    simp [hmergedGb]

theorem handleBranchChanged_fetch_fail (env : Env) (folder : WorkspaceFolderState)
    (nb msg : String) (s : IndexerState)
    (hSelf : mapGet s.workspaceFolders folder.folder.fsPath = some folder)
    (hTok : isTruthy s.config.token = true)
    (hOrg : isTruthy s.config.organizationId = true)
    (hPid : isTruthy folder.projectId = true)
    (hCache : s.manifestCache = [])
    (hFail : forall q, env.fetchManifest q = .error msg) :
    (mapGet (handleBranchChanged env folder nb s).workspaceFolders
        folder.folder.fsPath).map
        (fun st => (st.gitBranch, st.lastError.map (fun err => err.type))) =
      some (some nb, some ErrorType.manifest) := by
  have hmergedGb : (applyFolderUpdate folder (updateWorkspaceFolderBranch env folder nb)).gitBranch
      = some nb := by
    simp [applyFolderUpdate, updateWorkspaceFolderBranch_gitBranch]
  have hget1 : mapGet (updateWorkspaceFolder s.workspaceFolders folder.folder.fsPath
      (updateWorkspaceFolderBranch env folder nb)) folder.folder.fsPath =
      some (applyFolderUpdate folder (updateWorkspaceFolderBranch env folder nb)) := by
    rw [updateWorkspaceFolder_of_get _ _ _ _ hSelf]
    exact mapGet_mapSet_self _ _ _
  have hcond : (isTruthy s.config.token && isTruthy s.config.organizationId
      && isTruthy folder.projectId) = true := by
    simp [hTok, hOrg, hPid]
  unfold handleBranchChanged
  dsimp only
  rw [if_pos hcond, hCache]
  rw [getOrFetchManifest_empty_fail env _ env.now env.now2 env.freshPid msg (hFail _)]
  dsimp only
  rw [updateWorkspaceFolder_of_get _ _ _ _ hget1]
  rw [mapGet_mapSet_self]
  simp [applyFolderUpdate, hmergedGb, createError, updateWorkspaceFolderBranch_gitBranch]

/-- C4: a branch-changed event for a registered, fully initialized
folder always commits the new branch to the folder field `gitBranch`,
whatever the outcome of the config re-resolution and of the manifest
re-fetch; and when the re-fetch for the new branch actually fails
(complete config, cold cache, failing fetch collaborator), the folder
additionally carries a manifest-typed `lastError`.  `processGitEvent` is
a total function here because `handleBranchChanged` catches the fetch
error, so no exception escapes the event processor. -/
theorem c4_branch_change_commits (env : Env) (s : IndexerState)
    (folder : WorkspaceFolderState) (w : Option Nat) (br : String) (isBase : Bool)
    (prev nb msg : String)
    (hFind : findWorkspaceFolderByWatcher s.workspaceFolders w = some folder)
    (hPid : isTruthy folder.projectId = true)
    (hBr : isTruthy folder.gitBranch = true)
    (hSelf : mapGet s.workspaceFolders folder.folder.fsPath = some folder) :
    ((mapGet (processGitEvent env (.branchChanged w br isBase prev nb) s).workspaceFolders
        folder.folder.fsPath).map (fun st => st.gitBranch) = some (some nb)) /\
    (isTruthy s.config.token = true → isTruthy s.config.organizationId = true →
      s.manifestCache = [] → (forall q, env.fetchManifest q = .error msg) →
      (mapGet (processGitEvent env (.branchChanged w br isBase prev nb) s).workspaceFolders
          folder.folder.fsPath).map
          (fun st => (st.gitBranch, st.lastError.map (fun err => err.type))) =
        some (some nb, some ErrorType.manifest)) := by
  have hred : processGitEvent env (.branchChanged w br isBase prev nb) s =
      handleBranchChanged env folder nb s := by
    simp [processGitEvent, GitWatcherEvent.watcher, hFind, hPid, hBr]
  rw [hred]
  constructor
  case left => exact handleBranchChanged_gitBranch env folder nb s hSelf
  case right =>
    intro hTok hOrg hCache hFail
    exact handleBranchChanged_fetch_fail env folder nb msg s hSelf hTok hOrg hPid hCache hFail

/-- Concrete folder, store and environment used to witness C4: a
registered folder on `main`, cold manifest cache, config-lookup
collaborator returning no override, fetch collaborator failing. -/
def folderC4 : WorkspaceFolderState :=
  { folder := { fsPath := "/w", name := "w" }, gitBranch := some "main",
    projectId := some "p1", repositoryUrl := some "",
    isIndexing := false, watcher := some 3, lastError := none }

def stateC4 : IndexerState :=
  { workspaceFolders := [("/w", folderC4)], manifestCache := [],
    fileUpsertQueue := [], errors := [], isActive := true,
    config := { token := some "t", organizationId := some "o",
                testerWarningsDisabledUntil := none } }

def envC4 : Env :=
  { fetchManifest := fun _ => .error "api down",
    pendingResult := fun _ => .ok { files := [] },
    kiloConfig := fun _ _ => .ok none,
    scannerExtensions := [".ts"], now := 0, now2 := 1, freshPid := 5 }

/-- Witness for C4: the branch switch from `main` to `feature` commits
`gitBranch := "feature"` even though the manifest fetch fails, and the
folder ends with a `manifest`-typed `lastError`. -/
theorem c4_branch_change_commits_witness :
    ((mapGet (processGitEvent envC4
        (.branchChanged (some 3) "feature" true "main" "feature") stateC4).workspaceFolders
        "/w").map (fun st => st.gitBranch) = some (some "feature")) ∧
    ((mapGet (processGitEvent envC4
        (.branchChanged (some 3) "feature" true "main" "feature") stateC4).workspaceFolders
        "/w").map (fun st => (st.gitBranch, st.lastError.map (fun err => err.type))) =
      some (some "feature", some ErrorType.manifest)) := by
  have h := c4_branch_change_commits envC4 stateC4 folderC4 (some 3) "feature" true
    "main" "feature" "api down" (by rfl) (by rfl) (by rfl) (by rfl)
  exact ⟨h.1, h.2 (by rfl) (by rfl) rfl (fun _ => rfl)⟩

/- =============== C3: start() inclusion/retention policy =============== -/

/-- C3: during `start()`, a folder failing the is-git-repository check,
or with no resolvable project id, is entirely absent from the resulting
registry; a folder passing both checks whose initial manifest fetch fails
is retained with `watcher == null`, its git identity intact, and a
`manifest`-typed `lastError`. -/
theorem c3_start_folder_policy (env : Env) (config : ConfigState) (fe : FolderEnv)
    (gi : GitInfo) (pid msg : String) :
    (fe.isGitRepo = .ok false → startFolders env config [fe] [] [] = ([], [])) ∧
    (fe.isGitRepo = .ok true → fe.gitInfo = .ok gi → fe.kiloConfig = .ok none →
      startFolders env config [fe] [] [] = ([], [])) ∧
    (fe.isGitRepo = .ok true → fe.gitInfo = .ok gi →
      fe.kiloConfig = .ok (some { projectId := some pid }) → pid ≠ "" →
      isTruthy config.token = true → isTruthy config.organizationId = true →
      env.fetchManifest
        { organizationId := config.organizationId.getD "", projectId := pid,
          branch := gi.branch, token := config.token.getD "" } = .error msg →
      ((startFolders env config [fe] [] []).1.length = 1 ∧
       (mapGet (startFolders env config [fe] [] []).1 fe.folder.fsPath).map
         (fun st => (st.watcher, st.gitBranch, st.projectId,
           st.lastError.map (fun err => err.type))) =
         some (none, some gi.branch, some pid, some ErrorType.manifest))) := by
  refine ⟨?_, ?_, ?_⟩
  · intro h
    simp [startFolders, initializeWorkspaceFolder, h]
  · intro h1 h2 h3
    simp [startFolders, initializeWorkspaceFolder, h1, h2, h3, isTruthy]
  · intro h1 h2 h3 hne hTok hOrg hFetch
    have hinit : initializeWorkspaceFolder fe =
        some { folder := fe.folder, gitBranch := some gi.branch, projectId := some pid,
               repositoryUrl := some (gi.repositoryUrl.getD ""), isIndexing := false,
               watcher := none, lastError := none } := by
      simp [initializeWorkspaceFolder, h1, h2, h3, isTruthy, hne]
    have hfail : getOrFetchManifest env
        { organizationId := config.organizationId.getD "", projectId := pid,
          branch := gi.branch, token := config.token.getD "" }
        [] env.now env.now2 env.freshPid = ([], .error msg) :=
      getOrFetchManifest_empty_fail env _ env.now env.now2 env.freshPid msg hFetch
    have hsetup : setupWorkspaceFolder env config fe
        { folder := fe.folder, gitBranch := some gi.branch, projectId := some pid,
          repositoryUrl := some (gi.repositoryUrl.getD ""), isIndexing := false,
          watcher := none, lastError := none } [] =
        (some { folder := fe.folder, gitBranch := some gi.branch, projectId := some pid,
                repositoryUrl := some (gi.repositoryUrl.getD ""), isIndexing := false,
                watcher := none,
                lastError := some (createError .manifest msg
                  [("operation", "setup-workspace"), ("branch", gi.branch)]) }, []) := by
      have hpidT : isTruthy (some pid) = true := by simp [isTruthy, hne]
      simp [setupWorkspaceFolder, hTok, hOrg, hpidT, hfail]
    refine ⟨?_, ?_⟩ <;> simp [startFolders, hinit, hsetup, mapSet, mapGet, createError]

/-- Concrete folder environments used to witness C3. -/
def configC3 : ConfigState :=
  { token := some "t", organizationId := some "o", testerWarningsDisabledUntil := none }

def envC3 : Env :=
  { fetchManifest := fun _ => .error "api down",
    pendingResult := fun _ => .ok { files := [] },
    kiloConfig := fun _ _ => .ok none,
    scannerExtensions := [".ts"], now := 0, now2 := 1, freshPid := 5 }

def feNotGit : FolderEnv :=
  { folder := { fsPath := "/a", name := "a" }, isGitRepo := .ok false,
    gitInfo := .ok { repositoryUrl := some "u", branch := "main" },
    kiloConfig := .ok none, watcherId := some 1 }

def feNoProject : FolderEnv :=
  { folder := { fsPath := "/b", name := "b" }, isGitRepo := .ok true,
    gitInfo := .ok { repositoryUrl := some "u", branch := "main" },
    kiloConfig := .ok none, watcherId := some 1 }

def feManifestFail : FolderEnv :=
  { folder := { fsPath := "/c", name := "c" }, isGitRepo := .ok true,
    gitInfo := .ok { repositoryUrl := some "u", branch := "main" },
    kiloConfig := .ok (some { projectId := some "p1" }), watcherId := some 1 }

/-- Witness for C3 at the three concrete folder environments. -/
theorem c3_start_folder_policy_witness :
    startFolders envC3 configC3 [feNotGit] [] [] = ([], []) ∧
    startFolders envC3 configC3 [feNoProject] [] [] = ([], []) ∧
    ((startFolders envC3 configC3 [feManifestFail] [] []).1.length = 1 ∧
     (mapGet (startFolders envC3 configC3 [feManifestFail] [] []).1 "/c").map
       (fun st => (st.watcher, st.gitBranch, st.projectId,
         st.lastError.map (fun err => err.type))) =
       some (none, some "main", some "p1", some ErrorType.manifest)) :=
  ⟨(c3_start_folder_policy envC3 configC3 feNotGit
      { repositoryUrl := some "u", branch := "main" } "p1" "api down").1 (by rfl),
   (c3_start_folder_policy envC3 configC3 feNoProject
      { repositoryUrl := some "u", branch := "main" } "p1" "api down").2.1
      (by rfl) (by rfl) (by rfl),
   (c3_start_folder_policy envC3 configC3 feManifestFail
      { repositoryUrl := some "u", branch := "main" } "p1" "api down").2.2
      (by rfl) (by rfl) (by rfl) (by decide) (by rfl) (by rfl) (by rfl)⟩

/- =============== C9: null-watcher folders and event targeting =============== -/

theorem handleBranchChanged_other_path (env : Env) (f : WorkspaceFolderState)
    (nb : String) (s : IndexerState) (path : String) (hpath : f.folder.fsPath ≠ path) :
    mapGet (handleBranchChanged env f nb s).workspaceFolders path =
      mapGet s.workspaceFolders path := by
  unfold handleBranchChanged
  dsimp only
  by_cases hc : (isTruthy s.config.token && isTruthy s.config.organizationId
      && isTruthy f.projectId) = true
  · rw [if_pos hc]
    rcases hm : getOrFetchManifest env
        { organizationId := s.config.organizationId.getD "",
          projectId := (jsOrString ((updateWorkspaceFolderBranch env f nb).projectId.getD none)
            f.projectId).getD "",
          branch := nb, token := s.config.token.getD "" }
        s.manifestCache env.now env.now2 env.freshPid with hmpair
    cases hmpair with
    | mk c r =>
      cases r with
      | ok m =>
        dsimp only
        rw [mapGet_updateWorkspaceFolder_other _ _ _ _ hpath]
      | error e =>
        dsimp only
        rw [mapGet_updateWorkspaceFolder_other _ _ _ _ hpath,
          mapGet_updateWorkspaceFolder_other _ _ _ _ hpath]
  · rw [if_neg hc]
    dsimp only
    rw [mapGet_updateWorkspaceFolder_other _ _ _ _ hpath]

/-- Registry entries not owned by the event-designated folder are
untouched by `processGitEvent`. -/
theorem processGitEvent_other_path (env : Env) (e : GitWatcherEvent) (s : IndexerState)
    (path : String) (st : WorkspaceFolderState)
    (hGet : mapGet s.workspaceFolders path = some st)
    (hOther : ∀ f, findWorkspaceFolderByWatcher s.workspaceFolders e.watcher = some f →
      f.folder.fsPath ≠ path) :
    mapGet (processGitEvent env e s).workspaceFolders path = some st := by
  unfold processGitEvent
  cases hF : findWorkspaceFolderByWatcher s.workspaceFolders e.watcher with
  | none => exact hGet
  | some f =>
    have hpath := hOther f hF
    dsimp only
    by_cases hg : (!(isTruthy f.projectId) || !(isTruthy f.gitBranch)) = true
    · rw [if_pos hg]
      exact hGet
    · rw [if_neg hg]
      cases e with
      | scanStart w b bb =>
        simp only [handleScanStart]
        rw [mapGet_updateWorkspaceFolder_other _ _ _ _ hpath]
        exact hGet
      | scanEnd w b bb =>
        simp only [handleScanEnd]
        rw [mapGet_updateWorkspaceFolder_other _ _ _ _ hpath]
        exact hGet
      | fileChanged w b bb fp fh =>
        rw [handleFileChanged_workspaceFolders]
        exact hGet
      | fileDeleted w b bb fp => exact hGet
      | branchChanged w b bb pb nb =>
        rw [handleBranchChanged_other_path _ _ _ _ _ hpath]
        exact hGet

/-- C9 (amended): for every event carrying a NON-null watcher handle, a
registered folder whose `watcher` is null is never selected as the
target of event processing (`findWorkspaceFolderByWatcher` cannot return
it) and its registry entry is untouched by `processGitEvent`.  The
restriction to non-null handles is forced by the counterexample: the JS
comparison `state.watcher === event.watcher` also matches `null === null`,
so an event carrying a null handle does select and mutate a null-watcher
folder. -/
theorem c9_null_watcher_never_target (env : Env) (e : GitWatcherEvent) (s : IndexerState)
    (w : Nat) (path : String) (st : WorkspaceFolderState)
    (hW : e.watcher = some w)
    (hNd : (s.workspaceFolders.map Prod.fst).Nodup)
    (hCoh : ∀ p ∈ s.workspaceFolders, (Prod.snd p).folder.fsPath = Prod.fst p)
    (hGet : mapGet s.workspaceFolders path = some st)
    (hNull : st.watcher = none) :
    findWorkspaceFolderByWatcher s.workspaceFolders e.watcher ≠ some st ∧
    mapGet (processGitEvent env e s).workspaceFolders path = some st := by
  have hne : findWorkspaceFolderByWatcher s.workspaceFolders e.watcher ≠ some st := by
    intro hcontra
    have hwe := findWorkspaceFolderByWatcher_watcher hcontra
    rw [hNull, hW] at hwe
    exact Option.noConfusion hwe
  refine ⟨hne, ?_⟩
  refine processGitEvent_other_path env e s path st hGet ?_
  intro f hF
  have hfw : f.watcher = some w := by
    rw [findWorkspaceFolderByWatcher_watcher hF, hW]
  have hfs : f ≠ st := by
    intro hEq
    rw [hEq, hNull] at hfw
    exact Option.noConfusion hfw
  obtain ⟨k, hkmem⟩ := findWorkspaceFolderByWatcher_mem hF
  have hk : f.folder.fsPath = k := hCoh (k, f) hkmem
  rw [hk]
  intro hkp
  subst hkp
  exact hfs (assoc_nodup_unique hNd hkmem (mapGet_mem hGet))

/-- Concrete registry used for the C9 counterexample and witness: the
folder at `/w` has a null watcher (its setup manifest fetch failed), a
resolved project id and branch; the folder at `/a` owns watcher 3. -/
def folderC9 : WorkspaceFolderState :=
  { folder := { fsPath := "/w", name := "w" }, gitBranch := some "main",
    projectId := some "p1", repositoryUrl := some "",
    isIndexing := false, watcher := none,
    lastError := some (createError .manifest "api down"
      [("operation", "setup-workspace"), ("branch", "main")]) }

def folderC9live : WorkspaceFolderState :=
  { folder := { fsPath := "/a", name := "a" }, gitBranch := some "main",
    projectId := some "p2", repositoryUrl := some "",
    isIndexing := false, watcher := some 3, lastError := none }

def stateC9 : IndexerState :=
  { workspaceFolders := [("/a", folderC9live), ("/w", folderC9)], manifestCache := [],
    fileUpsertQueue := [], errors := [], isActive := true,
    config := { token := some "t", organizationId := some "o",
                testerWarningsDisabledUntil := none } }

def envC9 : Env :=
  { fetchManifest := fun _ => .ok { files := [] },
    pendingResult := fun _ => .ok { files := [] },
    kiloConfig := fun _ _ => .ok none,
    scannerExtensions := [".ts"], now := 0, now2 := 1, freshPid := 5 }

/-- C9 counterexample: a scan-start event carrying a NULL watcher handle
selects the registered null-watcher folder (JS `null === null`) and
mutates it — `isIndexing` flips to true and its `lastError` is cleared —
refuting the claim for events with a null watcher handle. -/
theorem c9_null_handle_counterexample :
    folderC9.watcher = none ∧
    mapGet stateC9.workspaceFolders "/w" = some folderC9 ∧
    folderC9.isIndexing = false ∧
    (mapGet (processGitEvent envC9 (.scanStart none "main" true) stateC9).workspaceFolders
      "/w").map (fun st => (st.isIndexing, st.lastError)) = some (true, none) := by
  refine ⟨rfl, rfl, rfl, ?_⟩
  decide

/-- Witness for C9 (amended): a scan-start event owned by watcher 3
leaves the null-watcher folder at `/w` untouched. -/
theorem c9_null_watcher_never_target_witness :
    findWorkspaceFolderByWatcher stateC9.workspaceFolders
      (GitWatcherEvent.scanStart (some 3) "main" true).watcher ≠ some folderC9 ∧
    mapGet (processGitEvent envC9
      (.scanStart (some 3) "main" true) stateC9).workspaceFolders "/w" = some folderC9 :=
  c9_null_watcher_never_target envC9 (.scanStart (some 3) "main" true) stateC9 3 "/w"
    folderC9 (by rfl) (by decide) (by decide) (by rfl) (by rfl)

end ManagedIndexer
